import Mathlib

/-!
Shallow embedding of the voice-doc-appointment conversation controller and
doctor service, translated from:

  src/voice_doctor_appointment/app/models/doctor.py
  src/voice_doctor_appointment/app/services/doctor_service.py
  src/voice_doctor_appointment/app/ui/main_content.py
  src/voice_doctor_appointment/app/config.py

Python dictionaries whose keys may be absent are modelled with `Option`
fields (outer `Option` = key presence; a second `Option` layer = a JSON
null value where the code distinguishes the two). External gateways
(OpenAI, Doctolib HTTP endpoints) are modelled as oracle parameters.
-/

/-! ## Python string helpers -/

/-- Python `str.strip()` whitespace set. -/
def pyIsSpace (c : Char) : Bool :=
  c = ' ' || c = '\t' || c = '\n' || c = '\r' || c = '\x0b' || c = '\x0c'

/-- Python `s.strip()`: remove leading and trailing whitespace. -/
def pyStrip (s : String) : String :=
  ⟨((s.data.dropWhile pyIsSpace).reverse.dropWhile pyIsSpace).reverse⟩

/-- Python `s.replace('\n', ' ')`. -/
def pyReplaceNl (s : String) : String :=
  ⟨s.data.map (fun c => if c = '\n' then ' ' else c)⟩

/-- Whether `pat` is a prefix of `s` (character lists). -/
def listStartsWith : List Char → List Char → Bool
  | _, [] => true
  | [], _ :: _ => false
  | c :: cs, p :: ps => c = p && listStartsWith cs ps

/-- Whether `pat` occurs as a contiguous run inside `s` (character lists). -/
def listContainsSub : List Char → List Char → Bool
  | [], pat => pat.isEmpty
  | c :: rest, pat => listStartsWith (c :: rest) pat || listContainsSub rest pat

/-- Python `pat in s` (substring containment). -/
def pyContains (s pat : String) : Bool :=
  listContainsSub s.data pat.data

/-- Python `s.lower()` (the ASCII range, which covers every keyword the
controller matches). -/
def pyLower (s : String) : String :=
  ⟨s.data.map Char.toLower⟩

/-- Whether a string holds an embedded or surrounding newline character. -/
def hasNewline (s : String) : Bool :=
  s.data.contains '\n'

/-! ## config.py -/

/-- config.py: `DOCTOLIB_BASE_URL = "https://www.doctolib.de"`. -/
def DOCTOLIB_BASE_URL : String := "https://www.doctolib.de"

/-- main_content.py `find_doctors`: `max_results: int = 5` default. -/
def MAX_RESULTS : Nat := 5

/-! ## models/doctor.py -/

/-- A location dictionary (`Dict[str, Any]` in the dataclass), modelled
shallowly as an association list of string fields (address and the like);
to_dict / from_dict pass it through unchanged. -/
abbrev LocDict := List (String × String)

/-- models/doctor.py: the `Doctor` dataclass. -/
structure Doctor where
  id : String
  name : String
  location : LocDict
  link : String
  specialty : Option String
  profile_image_url : Option String
  languages : List String
  deriving Repr, DecidableEq

/-- A serialized doctor record (a Python dict): an outer `Option` marks key
presence, the inner layers keep the dataclass field types (`specialty` and
`profile_image_url` may be present with a null value). -/
structure DoctorRecord where
  id : Option String
  name : Option String
  specialty : Option (Option String)
  location : Option LocDict
  link : Option String
  profile_image_url : Option (Option String)
  languages : Option (List String)
  deriving Repr, DecidableEq

/-- models/doctor.py `Doctor.to_dict`: every key is written. -/
def Doctor.to_dict (x : Doctor) : DoctorRecord :=
  { id := some x.id
    name := some x.name
    specialty := some x.specialty
    location := some x.location
    link := some x.link
    profile_image_url := some x.profile_image_url
    languages := some x.languages }

/-- models/doctor.py `Doctor.from_dict`: `data.get` with the defaults of the
source (`str(data.get('id', ''))` is the identity on the string ids this
model types; missing `specialty` defaults to the empty string while a
present null stays `None`). -/
def Doctor.from_dict (d : DoctorRecord) : Doctor :=
  { id := d.id.getD ""
    name := d.name.getD "Doctor"
    specialty := d.specialty.getD (some "")
    location := d.location.getD []
    link := d.link.getD ""
    profile_image_url := d.profile_image_url.getD none
    languages := d.languages.getD [] }

/-- models/doctor.py `Doctor.booking_url`: `f"{DOCTOLIB_BASE_URL}{self.link}"`. -/
def Doctor.booking_url (x : Doctor) : String :=
  DOCTOLIB_BASE_URL ++ x.link

/-! ## services/doctor_service.py — search_doctors -/

/-- One raw `healthcareProviders` entry of the search response, with the
fields `search_doctors` and `Doctor.from_dict` read or write.
`telehealth` models `doc.get("onlineBooking", {}).get("telehealth", False)`
(absence gives `False`). -/
structure RawDoc where
  id : Option String
  name : Option String
  telehealth : Bool
  cloudinaryPublicId : Option String
  address : Option String
  description : Option String
  specialty : Option (Option String)
  location : Option LocDict
  link : Option String
  profile_image_url : Option (Option String)
  languages : Option (List String)
  deriving Repr, DecidableEq

/-- doctor_service.py line 58: the profile-image URL prefix. -/
def MEDIA_PREFIX : String :=
  "https://media.doctolib.com/image/upload/q_auto:eco,f_auto,dpr_2/w_62,h_62,c_fill,g_face/"

/-- doctor_service.py lines 67-70:
`if field in doc and doc[field]: doc[field] = doc[field].replace('\n', ' ').strip()`
(a missing key or a falsy empty string is left alone). -/
def cleanStrField : Option String → Option String
  | none => none
  | some s => if s = "" then some s else some (pyStrip (pyReplaceNl s))

/-- doctor_service.py lines 55-70: the in-place mutations `search_doctors`
applies to one raw entry before `Doctor.from_dict` — profile image URL from
`cloudinaryPublicId` when truthy, `doc["specialty"] = specialty.strip()`
(the keyword is a string here, so the `isinstance` branch), and newline
cleaning of `name`, `address`, `description`. -/
def mutateDoc (specialty : String) (doc : RawDoc) : RawDoc :=
  let doc :=
    match doc.cloudinaryPublicId with
    | some cid =>
        if cid ≠ "" then
          { doc with profile_image_url := some (some (MEDIA_PREFIX ++ cid)) }
        else doc
    | none => doc
  let doc := { doc with specialty := some (some (pyStrip specialty)) }
  { doc with
      name := cleanStrField doc.name
      address := cleanStrField doc.address
      description := cleanStrField doc.description }

/-- The mutated raw dict as `Doctor.from_dict` reads it. -/
def RawDoc.toRecord (doc : RawDoc) : DoctorRecord :=
  { id := doc.id
    name := doc.name
    specialty := doc.specialty
    location := doc.location
    link := doc.link
    profile_image_url := doc.profile_image_url
    languages := doc.languages }

/-- doctor_service.py lines 49-74: the processing loop of `search_doctors` —
skip entries whose telehealth flag is set, mutate the rest and collect
`Doctor.from_dict(doc)` in response order. -/
def processDoctors (specialty : String) : List RawDoc → List Doctor
  | [] => []
  | doc :: rest =>
      if doc.telehealth then processDoctors specialty rest
      else Doctor.from_dict (mutateDoc specialty doc).toRecord ::
             processDoctors specialty rest

/-- Outcome of the `requests.post` call of `search_doctors`: a parsed JSON
body (its `healthcareProviders` list, `[]` when the key is missing), or a
`requests.RequestException` (timeout, connection error, or the
`raise_for_status` of a non-2xx response). -/
inductive HttpResult where
  | success (healthcareProviders : List RawDoc)
  | requestException (msg : String)
  deriving Repr, DecidableEq

/-- doctor_service.py `DoctorService.search_doctors`, with the HTTP outcome
passed as an oracle: on `requests.RequestException` the handler prints and
returns `[]`; on success the response entries are processed. -/
def DoctorService.search_doctors (specialty : String) (resp : HttpResult) :
    List Doctor :=
  match resp with
  | .success docs => processDoctors specialty docs
  | .requestException _ => []

/-! ## main_content.py — extract_doctor_info validation -/

/-- The validated intent dictionary `extract_doctor_info` returns
(main_content.py lines 400-406). -/
structure ExtractedInfo where
  symptom : String
  recommended_specialty : String
  location : String
  languages_found : List String
  gender : Option String
  deriving Repr, DecidableEq

/-- The JSON object parsed from the language model's reply: each key may be
missing or null (both modelled as `none`). -/
structure GptExtracted where
  recommended_specialty : Option String
  location : Option String
  languages_found : Option (List String)
  gender : Option String
  deriving Repr, DecidableEq

/-- main_content.py lines 388-390: a gender other than `"male"` / `"female"`
is reset to null rather than rejected. -/
def normGender : Option String → Option String
  | none => none
  | some g => if g = "male" || g = "female" then some g else none

/-- main_content.py lines 381-406: the validation tail of
`extract_doctor_info` — `languages_found` defaults to `[]`, gender is
normalized, and a missing or falsy (empty) `recommended_specialty` or
`location` raises `ValueError`, caught to `return None`. Note: neither
field is trimmed before this check. -/
def extract_doctor_info_validate (e : GptExtracted) : Option ExtractedInfo :=
  let gender := normGender e.gender
  match e.recommended_specialty, e.location with
  | some rs, some loc =>
      if rs = "" || loc = "" then none
      else some
        { symptom := rs
          recommended_specialty := rs
          location := loc
          languages_found := e.languages_found.getD []
          gender := gender }
  | _, _ => none

/-! ## main_content.py — find_doctors -/

/-- doctor_service.py `get_specialty_info`: the first autocomplete entry. -/
structure SpecialtyInfo where
  value : String
  slug : String
  name : String
  deriving Repr, DecidableEq

/-- A Python exception as find_doctors' handlers classify it: `ValueError`
(its message is shown via `st.error(f"❌ {ve}")`) or any other exception
(a fixed generic message is shown). -/
inductive PyError where
  | valueError (msg : String)
  | otherError (msg : String)
  deriving Repr, DecidableEq

/-- The external Doctolib endpoints `find_doctors` calls, as oracles:
specialty autocomplete, place autocomplete, and the provider search (whose
own `requests.RequestException` handling already yields a plain list, see
`DoctorService.search_doctors`). -/
structure Gateways where
  get_specialty_info : String → Except PyError SpecialtyInfo
  resolve_location_name : String → Except PyError (String × String)
  search_doctors : String → List String → List Doctor

/-- What a `find_doctors` call leaves behind: its return value and the
message (if any) it displayed through `st.error`. -/
structure FDResult where
  doctors : List Doctor
  st_error : Option String
  deriving Repr, DecidableEq

/-- main_content.py lines 428-439: steps 1-2 of `find_doctors` — the
validation that runs before any gateway call. `location` is trimmed
(`.strip()`) before the emptiness check; `recommended_specialty` is checked
untrimmed. -/
def find_doctors_validate (extracted_info : Option ExtractedInfo) :
    Except String (ExtractedInfo × String × String) :=
  match extracted_info with
  | none => .error "No information was extracted from the input"
  | some info =>
      let location_name := pyStrip info.location
      if location_name = "" then
        .error "No location was specified in your request"
      else
        let specialty_name := info.recommended_specialty
        if specialty_name = "" then
          .error "No medical specialty was specified in your request"
        else .ok (info, specialty_name, location_name)

/-- main_content.py line 519: the generic handler's user-facing text. -/
def searchErrorText : String := "❌ An error occurred while searching for doctors"

/-- main_content.py `find_doctors` (lines 408-534): validation, the two
resolve calls, the provider search, and the `doctors[:max_results]`
truncation; `ValueError` and generic handlers fill `st_error`. The
`'name' not in specialty` / `'place_id' not in location_data` re-checks are
unreachable in this typed model (an `ok` oracle reply always carries them);
the static `place_info` payload construction is presentation data no claim
touches and is elided. -/
def find_doctors_run (gw : Gateways) (extracted_info : Option ExtractedInfo)
    (max_results : Nat) : FDResult :=
  match find_doctors_validate extracted_info with
  | .error m => { doctors := [], st_error := some ("❌ " ++ m) }
  | .ok (info, specialty_name, location_name) =>
      match gw.get_specialty_info specialty_name with
      | .error (.valueError m) => { doctors := [], st_error := some ("❌ " ++ m) }
      | .error (.otherError _) => { doctors := [], st_error := some searchErrorText }
      | .ok specialty =>
          match gw.resolve_location_name location_name with
          | .error (.valueError m) =>
              { doctors := [], st_error := some ("❌ " ++ m) }
          | .error (.otherError _) =>
              { doctors := [], st_error := some searchErrorText }
          | .ok _loc =>
              let doctors := gw.search_doctors specialty.slug info.languages_found
              if doctors.isEmpty then { doctors := [], st_error := none }
              else { doctors := doctors.take max_results, st_error := none }

/-! ## main_content.py — the choice loop of show_main_content -/

/-- One chat message: `{"role": ..., "content": ...}`. -/
structure Msg where
  role : String
  content : String
  deriving Repr, DecidableEq

/-- main_content.py line 189. -/
def noMoreOptionsText : String :=
  "I'm sorry, there are no more options available. Please try a different search."

/-- main_content.py line 204. -/
def didntCatchText : String :=
  "I didn't catch that. Please say 'I like it' to book this doctor or 'Next option' to see another option."

/-- main_content.py line 281: the plain-language chat message the
controller-boundary handler appends. -/
def errorChatText : String :=
  "I'm sorry, I encountered an error. Please try again."

/-- The session-state fields the choice loop (lines 149-210) reads and
writes. `initFlag` models `st.session_state.Initialize`. -/
structure ChoiceState where
  current_doctor_index : Nat
  awaiting_doctor_choice : Bool
  ask_for_booking_confirmation : Bool
  initFlag : Bool
  messages : List Msg
  deriving Repr, DecidableEq

/-- main_content.py line 181: `"next" in answer_lower or "other" in
answer_lower or "option" in answer_lower`. -/
def nextKeyword (al : String) : Bool :=
  pyContains al "next" || pyContains al "other" || pyContains al "option"

/-- main_content.py line 194: `"like" in answer_lower or "book" in
answer_lower or "yes" in answer_lower`. -/
def bookKeyword (al : String) : Bool :=
  pyContains al "like" || pyContains al "book" || pyContains al "yes"

/-- One iteration of the `while st.session_state.get('awaiting_doctor_choice',
False)` loop (main_content.py lines 154-209), given the transcript the voice
gateway returned for this round. A falsy answer (`None` or `""`) is skipped
(`continue`) with no state change. Otherwise the user message is appended
and the keyword sets are tried in source order: the "next" branch advances
the index while `current_doctor_index + 1 < len(doctors)` and otherwise
appends the no-more-options message, clears `awaiting_doctor_choice`,
resets the index to 0 and (falling through to line 208) sets `Initialize`;
the "book" branch clears the flag and requests booking confirmation
(`break` before line 208); any other answer appends a clarification
re-prompt and loops. -/
def choiceStep (doctors : List Doctor) (s : ChoiceState) (answer : Option String) :
    ChoiceState :=
  match answer with
  | none => s
  | some a =>
      if a = "" then s
      else
        let s := { s with messages := s.messages ++ [Msg.mk "user" a] }
        let al := pyLower a
        if nextKeyword al then
          if s.current_doctor_index + 1 < doctors.length then
            { s with current_doctor_index := s.current_doctor_index + 1 }
          else
            { s with
                messages := s.messages ++ [Msg.mk "assistant" noMoreOptionsText]
                awaiting_doctor_choice := false
                current_doctor_index := 0
                initFlag := true }
        else if bookKeyword al then
          { s with
              awaiting_doctor_choice := false
              ask_for_booking_confirmation := true }
        else
          { s with messages := s.messages ++ [Msg.mk "assistant" didntCatchText] }

/-- The choice loop run over a sequence of recognized answers. -/
def iterateChoice (doctors : List Doctor) (s : ChoiceState)
    (answers : List String) : ChoiceState :=
  answers.foldl (fun st a => choiceStep doctors st (some a)) s

/-- A transcript the "next" branch recognizes: truthy, and holding one of
the next/other/option keywords after lowercasing. -/
def isNextAnswer (a : String) : Bool :=
  !(a = "") && nextKeyword (pyLower a)

/-! ## main_content.py — transcript gate and controller boundary -/

/-- main_content.py lines 96-102: the transcript gate of
`show_main_content`. Returns the message list after the gate and whether
control reaches `extract_doctor_info` — only a truthy transcript appends
the user message and proceeds; an empty or null transcript falls through
to `finally` with no message and no extractor call. -/
def transcriptStep (messages : List Msg) (transcript : Option String) :
    List Msg × Bool :=
  match transcript with
  | none => (messages, false)
  | some t =>
      if t = "" then (messages, false)
      else (messages ++ [Msg.mk "user" t], true)

/-- main_content.py lines 276-283: the controller-boundary `except Exception`
handler — returns the message list after the handler and the text shown via
`st.error` (which interpolates `str(e)` unconditionally). -/
def controllerCatch (messages : List Msg) (e : String) : List Msg × String :=
  (messages ++ [Msg.mk "assistant" errorChatText], "An error occurred: " ++ e)

/-! ## Concrete fixtures for counterexamples and witnesses -/

/-- A concrete non-telehealth doctor used in closed statements. -/
def sampleDoctor (n : String) : Doctor :=
  { id := n
    name := n
    location := []
    link := "/d/" ++ n
    specialty := some "gp"
    profile_image_url := none
    languages := [] }

/-- Two candidates: the shortest list on which "next at the last candidate"
differs from "index unchanged". -/
def cexDoctors : List Doctor := [sampleDoctor "a", sampleDoctor "b"]

/-- Three candidates, for the in-range pagination witness. -/
def doctors3 : List Doctor := [sampleDoctor "a", sampleDoctor "b", sampleDoctor "c"]

/-- A choice-loop state already presenting the last of `cexDoctors`. -/
def cexState : ChoiceState :=
  { current_doctor_index := 1
    awaiting_doctor_choice := true
    ask_for_booking_confirmation := false
    initFlag := false
    messages := [] }

/-- A choice-loop state at the first candidate. -/
def startChoice : ChoiceState :=
  { current_doctor_index := 0
    awaiting_doctor_choice := true
    ask_for_booking_confirmation := false
    initFlag := false
    messages := [] }

/-- A chat history holding only the greeting. -/
def cexMsgs : List Msg := [Msg.mk "assistant" "Hello"]

/-- Gateways that resolve every specialty and location and whose provider
search returns `res`: two instances differing only in `res` separate "search
called" from "search not called". -/
def gwOf (res : List Doctor) : Gateways :=
  { get_specialty_info := fun _ => .ok ⟨"v", "slug", "nm"⟩
    resolve_location_name := fun _ => .ok ("desc", "pid")
    search_doctors := fun _ _ => res }

/-- An extracted intent whose specialty is whitespace-only (empty after
trimming) while the location is fine. -/
def cexInfoC2 : ExtractedInfo :=
  { symptom := "   "
    recommended_specialty := "   "
    location := "Berlin"
    languages_found := []
    gender := none }

/-- A raw provider entry with no optional keys and telehealth unset. -/
def cexRaw : RawDoc :=
  { id := some "1"
    name := some "Dr X"
    telehealth := false
    cloudinaryPublicId := none
    address := none
    description := none
    specialty := none
    location := none
    link := some "/x"
    profile_image_url := none
    languages := none }

/-! ## Shared lemmas about the embedding -/

/-- The processing loop of `search_doctors` is the telehealth filter
followed by the per-entry mutation, in response order. -/
theorem processDoctors_eq (specialty : String) (docs : List RawDoc) :
    processDoctors specialty docs
      = (docs.filter (fun d => !d.telehealth)).map
          (fun doc => Doctor.from_dict (mutateDoc specialty doc).toRecord) := by
  induction docs with
  | nil => rfl
  | cons d rest ih =>
      cases hd : d.telehealth <;>
        simp [processDoctors, hd, List.filter_cons, ih]

/-- Every list starts with itself. -/
theorem listStartsWith_refl (l : List Char) : listStartsWith l l = true := by
  induction l with
  | nil => rfl
  | cons c rest ih => simp [listStartsWith, ih]

/-- A list occurs as a contiguous run at the end of any extension of it. -/
theorem listContainsSub_append (l1 l2 : List Char) :
    listContainsSub (l1 ++ l2) l2 = true := by
  induction l1 with
  | nil =>
      cases l2 with
      | nil => rfl
      | cons c rest => simp [listContainsSub, listStartsWith_refl]
  | cons c rest ih => simp [listContainsSub, ih]

/-- Python `e in (pre + e)`: a suffix is found by substring containment. -/
theorem pyContains_append (pre e : String) : pyContains (pre ++ e) e = true := by
  unfold pyContains
  rw [String.data_append]
  exact listContainsSub_append pre.data e.data

/-- The truthy "next"-keyword step while more candidates remain: the user
message is appended and the cursor advances by exactly one. -/
theorem choiceStep_next_advance (doctors : List Doctor) (s : ChoiceState)
    (a : String) (h : isNextAnswer a = true)
    (hlt : s.current_doctor_index + 1 < doctors.length) :
    choiceStep doctors s (some a)
      = { s with
            messages := s.messages ++ [Msg.mk "user" a]
            current_doctor_index := s.current_doctor_index + 1 } := by
  unfold isNextAnswer at h
  rw [Bool.and_eq_true] at h
  obtain ⟨ha, hk⟩ := h
  have hne : ¬(a = "") := by
    intro hae
    rw [hae] at ha
    simp at ha
  simp [choiceStep, hne, hk, hlt]

/-- The per-entry mutation always stores the trimmed search keyword as the
specialty. -/
theorem mutateDoc_specialty (specialty : String) (doc : RawDoc) :
    (mutateDoc specialty doc).specialty = some (some (pyStrip specialty)) := by
  unfold mutateDoc
  rcases h : doc.cloudinaryPublicId with _ | cid
  · rfl
  · by_cases hc : cid = "" <;> simp [hc]



/-! ## The claims -/

/-- C9: serializing a `Doctor` with `to_dict` and reconstructing with
`from_dict` preserves the whole value, in particular `id`, `name`,
`specialty`, `languages`, and the derived `booking_url` (base URL + link). -/
theorem voicedoc_C9_roundtrip (x : Doctor) :
    Doctor.from_dict (Doctor.to_dict x) = x ∧
    (Doctor.from_dict (Doctor.to_dict x)).id = x.id ∧
    (Doctor.from_dict (Doctor.to_dict x)).name = x.name ∧
    (Doctor.from_dict (Doctor.to_dict x)).specialty = x.specialty ∧
    (Doctor.from_dict (Doctor.to_dict x)).languages = x.languages ∧
    (Doctor.from_dict (Doctor.to_dict x)).booking_url = x.booking_url := by
  have h : Doctor.from_dict (Doctor.to_dict x) = x := rfl
  exact ⟨h, by rw [h], by rw [h], by rw [h], by rw [h], by rw [h]⟩

/-- C10: a `requests.RequestException` from the search HTTP call never
propagates — `search_doctors` returns the empty list, the same value a
successful search with zero usable candidates yields. -/
theorem voicedoc_C10_gateway_failure_empty (specialty msg : String) :
    DoctorService.search_doctors specialty (.requestException msg) = [] ∧
    DoctorService.search_doctors specialty (.requestException msg)
      = DoctorService.search_doctors specialty (.success []) :=
  ⟨rfl, rfl⟩

/-- C5: for every raw response and result order, the processed list is the
telehealth filter followed by the per-entry mutation, so every candidate
descends from an entry whose telehealth flag is false — a telehealth-only
provider never enters the list, and the filter runs at ingestion in the
search service. -/
theorem voicedoc_C5_telehealth_excluded (specialty : String) (docs : List RawDoc) :
    DoctorService.search_doctors specialty (.success docs)
        = (docs.filter (fun d => !d.telehealth)).map
            (fun doc => Doctor.from_dict (mutateDoc specialty doc).toRecord) ∧
    ∀ d ∈ DoctorService.search_doctors specialty (.success docs),
      ∃ raw, raw ∈ docs ∧ raw.telehealth = false ∧
        d = Doctor.from_dict (mutateDoc specialty raw).toRecord := by
  refine ⟨processDoctors_eq specialty docs, ?_⟩
  intro d hd
  have he : DoctorService.search_doctors specialty (.success docs)
      = processDoctors specialty docs := rfl
  rw [he, processDoctors_eq, List.mem_map] at hd
  obtain ⟨raw, hraw, hdd⟩ := hd
  rw [List.mem_filter] at hraw
  exact ⟨raw, hraw.1, by simpa using hraw.2, hdd.symm⟩

/-- C7: over any sequence of "next" answers given while
`current_doctor_index + 1 < len(doctors)` keeps holding, the cursor grows by
exactly one per answer (so it strictly increases across the sequence) and
never exceeds `len(doctors) - 1`. -/
theorem voicedoc_C7_next_strict_increase (doctors : List Doctor)
    (answers : List String) (s : ChoiceState)
    (hall : ∀ a ∈ answers, isNextAnswer a = true)
    (hlt : s.current_doctor_index + answers.length < doctors.length) :
    (iterateChoice doctors s answers).current_doctor_index
        = s.current_doctor_index + answers.length ∧
    (iterateChoice doctors s answers).current_doctor_index
        ≤ doctors.length - 1 := by
  induction answers generalizing s with
  | nil =>
      refine ⟨by simp [iterateChoice], ?_⟩
      simp only [iterateChoice, List.foldl_nil]
      simp only [List.length_nil, Nat.add_zero] at hlt
      omega
  | cons a rest ih =>
      have ha : isNextAnswer a = true := hall a (List.mem_cons_self a rest)
      have hlen : s.current_doctor_index + 1 < doctors.length := by
        simp only [List.length_cons] at hlt
        omega
      have hstep := choiceStep_next_advance doctors s a ha hlen
      have hit : iterateChoice doctors s (a :: rest)
          = iterateChoice doctors (choiceStep doctors s (some a)) rest := rfl
      rw [hit, hstep]
      have hrest : ∀ b ∈ rest, isNextAnswer b = true := fun b hb =>
        hall b (List.mem_cons_of_mem a hb)
      have hlt2 : ({ s with
            messages := s.messages ++ [Msg.mk "user" a]
            current_doctor_index :=
              s.current_doctor_index + 1 } : ChoiceState).current_doctor_index
            + rest.length < doctors.length := by
        simp only [List.length_cons] at hlt
        simpa using (by omega :
          s.current_doctor_index + 1 + rest.length < doctors.length)
      obtain ⟨h1, h2⟩ := ih _ hrest hlt2
      refine ⟨?_, h2⟩
      rw [h1]
      simp [List.length_cons]
      omega

/-- C7 witness: from the first of three candidates, two in-range "next"
style answers advance the cursor to 2, which is `len - 1`. -/
theorem voicedoc_C7_wit :
    (iterateChoice doctors3 startChoice ["next", "Other option"]).current_doctor_index
        = startChoice.current_doctor_index
            + (["next", "Other option"] : List String).length ∧
    (iterateChoice doctors3 startChoice ["next", "Other option"]).current_doctor_index
        ≤ doctors3.length - 1 :=
  voicedoc_C7_next_strict_increase doctors3 ["next", "Other option"] startChoice
    (by decide) (by decide)

/-- C6: the candidates list never holds more than `max_results` providers
(default `MAX_RESULTS = 5`): on the success path the returned list is
exactly `doctors[:max_results]` of the gateway result, and that result is
the filtered response in the gateway's original ranking order — no local
re-sorting. -/
theorem voicedoc_C6_truncation (gw : Gateways) (einfo : Option ExtractedInfo)
    (mr : Nat) :
    MAX_RESULTS = 5 ∧
    (find_doctors_run gw einfo mr).doctors.length ≤ mr ∧
    (∀ (info : ExtractedInfo) (sn ln : String) (si : SpecialtyInfo)
        (loc : String × String),
        find_doctors_validate einfo = .ok (info, sn, ln) →
        gw.get_specialty_info sn = .ok si →
        gw.resolve_location_name ln = .ok loc →
        (find_doctors_run gw einfo mr).doctors
          = (gw.search_doctors si.slug info.languages_found).take mr) ∧
    (∀ (specialty : String) (docs : List RawDoc),
        (DoctorService.search_doctors specialty (.success docs)).take mr
          = ((docs.filter (fun d => !d.telehealth)).map
              (fun doc => Doctor.from_dict (mutateDoc specialty doc).toRecord)).take mr) := by
  refine ⟨rfl, ?_, ?_, ?_⟩
  · unfold find_doctors_run
    rcases find_doctors_validate einfo with m | ⟨info, sn, ln⟩
    · simp
    · rcases hs : gw.get_specialty_info sn with (m | m) | si
      · simp [hs]
      · simp [hs]
      · rcases hr : gw.resolve_location_name ln with (m | m) | loc
        · simp [hs, hr]
        · simp [hs, hr]
        · by_cases hemp : gw.search_doctors si.slug info.languages_found = []
          · simp [hs, hr, hemp]
          · simp [hs, hr, hemp, List.length_take_le]
  · intro info sn ln si loc hv hsi hrl
    unfold find_doctors_run
    rw [hv]
    simp only [hsi, hrl]
    by_cases hemp : gw.search_doctors si.slug info.languages_found = []
    · simp [hemp]
    · simp [hemp]
  · intro specialty docs
    have he : DoctorService.search_doctors specialty (.success docs)
        = processDoctors specialty docs := rfl
    rw [he, processDoctors_eq]

/-- C1 (amended): answering "next" (or "other"/"option") while the presented
candidate is the last one appends the no-more-options assistant message —
but it does not leave `current_doctor_index` unchanged: the loop flag
`awaiting_doctor_choice` is cleared, `Initialize` is set, and the index is
reset to 0 (main_content.py line 192). -/
theorem voicedoc_C1_last_next_resets (doctors : List Doctor) (s : ChoiceState)
    (a : String) (h : isNextAnswer a = true)
    (hlast : s.current_doctor_index + 1 = doctors.length) :
    choiceStep doctors s (some a)
      = { s with
            messages := s.messages
                ++ [Msg.mk "user" a, Msg.mk "assistant" noMoreOptionsText]
            awaiting_doctor_choice := false
            current_doctor_index := 0
            initFlag := true } := by
  unfold isNextAnswer at h
  rw [Bool.and_eq_true] at h
  obtain ⟨ha, hk⟩ := h
  have hne : ¬(a = "") := by
    intro hae
    rw [hae] at ha
    simp at ha
  have hnlt : ¬(s.current_doctor_index + 1 < doctors.length) := by omega
  simp [choiceStep, hne, hk, hnlt]

/-- C1 counterexample: with two candidates and the cursor on the last one
(index 1), answering "next" appends the no-more-options message but moves
the index to 0 — it is not left unchanged, contradicting the claim. -/
theorem voicedoc_C1_cex :
    (choiceStep cexDoctors cexState (some "next")).current_doctor_index = 0 ∧
    cexState.current_doctor_index = 1 ∧
    (choiceStep cexDoctors cexState (some "next")).current_doctor_index
        ≠ cexState.current_doctor_index ∧
    (choiceStep cexDoctors cexState (some "next")).messages.getLast?
        = some (Msg.mk "assistant" noMoreOptionsText) := by decide

/-- C1 witness: the amended statement evaluated at the two-candidate
fixture. -/
theorem voicedoc_C1_wit :
    choiceStep cexDoctors cexState (some "next")
      = { cexState with
            messages := cexState.messages
                ++ [Msg.mk "user" "next", Msg.mk "assistant" noMoreOptionsText]
            awaiting_doctor_choice := false
            current_doctor_index := 0
            initFlag := true } :=
  voicedoc_C1_last_next_resets cexDoctors cexState "next" (by decide) (by decide)

/-- C2 (amended): an intent is accepted exactly when its `location` is
non-empty after trimming AND its `recommended_specialty` is non-empty
WITHOUT trimming — a whitespace-only specialty passes validation. When
validation rejects, the outcome is a fixed validation error naming the
missing field and is independent of every gateway, so no directory call is
made. -/
theorem voicedoc_C2_validation (gw gw2 : Gateways) (info : ExtractedInfo)
    (mr : Nat) :
    ((find_doctors_validate (some info)).isOk
        = (!(pyStrip info.location = "") && !(info.recommended_specialty = ""))) ∧
    (pyStrip info.location = "" →
        find_doctors_run gw (some info) mr
            = { doctors := []
                st_error := some "❌ No location was specified in your request" } ∧
        find_doctors_run gw (some info) mr = find_doctors_run gw2 (some info) mr) ∧
    (pyStrip info.location ≠ "" → info.recommended_specialty = "" →
        find_doctors_run gw (some info) mr
            = { doctors := []
                st_error := some "❌ No medical specialty was specified in your request" } ∧
        find_doctors_run gw (some info) mr = find_doctors_run gw2 (some info) mr) := by
  refine ⟨?_, ?_, ?_⟩
  · unfold find_doctors_validate
    by_cases hl : pyStrip info.location = ""
    · simp [hl, Except.isOk, Except.toBool]
    · by_cases hs : info.recommended_specialty = ""
      · simp [hl, hs, Except.isOk, Except.toBool]
      · simp [hl, hs, Except.isOk, Except.toBool]
  · intro hl
    have hv : find_doctors_validate (some info)
        = .error "No location was specified in your request" := by
      unfold find_doctors_validate
      simp [hl]
    constructor
    · unfold find_doctors_run
      rw [hv]
      rfl
    · unfold find_doctors_run
      rw [hv]
  · intro hl hs
    have hv : find_doctors_validate (some info)
        = .error "No medical specialty was specified in your request" := by
      unfold find_doctors_validate
      simp [hl, hs]
    constructor
    · unfold find_doctors_run
      rw [hv]
      rfl
    · unfold find_doctors_run
      rw [hv]


/-- C2 counterexample: an intent whose specialty is whitespace-only (empty
after trimming) is accepted — validation returns ok, no validation error is
shown, and the outcome depends on the search gateway, so a search call is
made, contradicting the claim. -/
theorem voicedoc_C2_cex :
    pyStrip cexInfoC2.recommended_specialty = "" ∧
    find_doctors_validate (some cexInfoC2) = .ok (cexInfoC2, "   ", "Berlin") ∧
    (find_doctors_run (gwOf []) (some cexInfoC2) MAX_RESULTS).st_error = none ∧
    find_doctors_run (gwOf []) (some cexInfoC2) MAX_RESULTS
        ≠ find_doctors_run (gwOf [sampleDoctor "a"]) (some cexInfoC2) MAX_RESULTS :=
  ⟨by decide, by rfl, by decide, by decide⟩


/-- C2 witness: the amended statement evaluated at an intent whose location
is whitespace-only. -/
theorem voicedoc_C2_wit :
    find_doctors_run (gwOf []) (some { cexInfoC2 with location := " " }) MAX_RESULTS
        = { doctors := []
            st_error := some "❌ No location was specified in your request" } ∧
    find_doctors_run (gwOf []) (some { cexInfoC2 with location := " " }) MAX_RESULTS
        = find_doctors_run (gwOf [sampleDoctor "a"])
            (some { cexInfoC2 with location := " " }) MAX_RESULTS :=
  (voicedoc_C2_validation (gwOf []) (gwOf [sampleDoctor "a"])
      { cexInfoC2 with location := " " } MAX_RESULTS).2.1 (by decide)

/-- C3 (amended): an empty or null transcript from the transcription
gateway means the extractor is never reached and the turn ends — but no
assistant message is appended: the message list is returned unchanged, with
no "didn't understand" reply. -/
theorem voicedoc_C3_empty_transcript_silent (ms : List Msg) (t : Option String) :
    ((t = none ∨ t = some "") → transcriptStep ms t = (ms, false)) ∧
    (∀ u : String, u ≠ "" → t = some u →
        transcriptStep ms t = (ms ++ [Msg.mk "user" u], true)) := by
  constructor
  · rintro (rfl | rfl) <;> rfl
  · rintro u hu rfl
    simp [transcriptStep, hu]


/-- C3 counterexample: on an empty (and on a null) transcript the message
list is unchanged — the claimed "didn't understand" assistant message is
never appended (the extractor is indeed not called). -/
theorem voicedoc_C3_cex :
    transcriptStep cexMsgs (some "") = (cexMsgs, false) ∧
    transcriptStep cexMsgs none = (cexMsgs, false) := by decide


/-- C4 (amended): the controller boundary catches every error and appends a
fixed plain-language assistant message to the chat — but the `st.error`
banner interpolates the raw exception text unconditionally (debug flag or
not), so the raw message is always part of what the user is shown. -/
theorem voicedoc_C4_error_banner (ms : List Msg) (e : String) :
    (controllerCatch ms e).1 = ms ++ [Msg.mk "assistant" errorChatText] ∧
    (controllerCatch ms e).2 = "An error occurred: " ++ e ∧
    pyContains (controllerCatch ms e).2 e = true := by
  refine ⟨rfl, rfl, ?_⟩
  exact pyContains_append "An error occurred: " e


/-- C4 counterexample: for the raw exception text "boom", the user-facing
`st.error` banner is "An error occurred: boom", which contains the raw
message — contradicting "a raw exception message is never shown". -/
theorem voicedoc_C4_cex :
    (controllerCatch cexMsgs "boom").2 = "An error occurred: boom" ∧
    pyContains (controllerCatch cexMsgs "boom").2 "boom" = true ∧
    (controllerCatch cexMsgs "boom").1
        = cexMsgs ++ [Msg.mk "assistant" errorChatText] := by decide


/-- C8 (amended): every candidate's stored specialty is the search
specialty trimmed of surrounding whitespace only — embedded newlines are
NOT collapsed (the `replace` of newlines is applied to name, address and
description, not to specialty), so trimming keeps an interior newline. -/
theorem voicedoc_C8_specialty_trim_only (specialty : String) (docs : List RawDoc) :
    (DoctorService.search_doctors specialty (.success docs)).map Doctor.specialty
        = (docs.filter (fun d => !d.telehealth)).map
            (fun _ => some (pyStrip specialty)) ∧
    pyReplaceNl "a\nb" = "a b" ∧ pyStrip "a\nb" = "a\nb" := by
  refine ⟨?_, by decide, by decide⟩
  have he : DoctorService.search_doctors specialty (.success docs)
      = processDoctors specialty docs := rfl
  rw [he, processDoctors_eq, List.map_map]
  refine List.map_congr_left ?_
  intro doc _
  show (Doctor.from_dict (mutateDoc specialty doc).toRecord).specialty
      = some (pyStrip specialty)
  simp [Doctor.from_dict, RawDoc.toRecord, mutateDoc_specialty]


/-- C8 counterexample: a specialty keyword with an embedded newline is
stored with the newline intact, so a stored specialty can contain a
newline, contradicting the claim. -/
theorem voicedoc_C8_cex :
    ((DoctorService.search_doctors "derm\natology" (.success [cexRaw])).map
        Doctor.specialty) = [some "derm\natology"] ∧
    hasNewline "derm\natology" = true := by decide
